import Mathlib

/-!
Shallow embedding of `src/mod_h2/h2_task.c` (the stream-task unit of an
HTTP/2 module).  Pure data is mirrored by records; the fallible external
calls (`apr_pool_create_ex`, `apr_pcalloc`, `ap_run_create_connection`,
`apr_socket_create`) are supplied by environment records; the side effects
on the Multiplexer (`h2_mplx_reference`, `h2_mplx_release`,
`h2_mplx_out_reset`) and the resource teardown calls are recorded in
explicit event traces.
-/

/-- `APR_SUCCESS` status code (0 in apr_errno.h). -/
def APR_SUCCESS : Nat := 0

/-- `APR_ENOMEM`: on Linux APR maps it to the native `ENOMEM` (12). -/
def APR_ENOMEM : Nat := 12

/-- `APR_ECONNABORTED`: on Linux APR maps it to native `ECONNABORTED` (103). -/
def APR_ECONNABORTED : Nat := 103

/-- `APR_EGENERAL` = `APR_OS_START_ERROR + 14` = 20014. -/
def APR_EGENERAL : Nat := 20014

/-- Connection record (`conn_rec`): only the parts h2_task.c touches.
`config_socket` models the socket stored in the master connection's
`conn_config` by the core module (read in `h2_conn_create`). -/
structure conn_rec where
  id : Int
  pool : Nat
  config_socket : Nat
deriving DecidableEq, Repr

/-- `struct h2_task_input` as used by h2_task.c: created with the session
and stream ids, the initial input bucket and the end-of-stream flag
(its reading logic lives in h2_task_input.c, outside this unit, and is
abstracted by the read functions passed to the input filter). -/
structure h2_task_input where
  session_id : Int
  stream_id : Int
  data : Option Nat
  eos : Bool
deriving DecidableEq, Repr

/-- `struct h2_task_output` as used by h2_task.c.  Modelled from the spec:
h2_task_output.c is not part of this unit; the spec states the Output
Bridge "tracks whether any data has ever been written (has started)",
read by the Task on completion, so the bridge state is the
`has_started` flag, initially false. -/
structure h2_task_output where
  session_id : Int
  stream_id : Int
  has_started : Bool
deriving DecidableEq, Repr

/-- `struct h2_task`: the fields of the C struct.  Pointer fields that can
be `NULL` are `Option`; `running` holds the raw `apr_uint32_t` value. -/
structure H2Task where
  session_id : Int
  stream_id : Int
  aborted : Bool
  running : Nat
  mplx : Option Nat
  pool : Option Nat
  c : Option conn_rec
  socket : Option Nat
  input : Option h2_task_input
  output : Option h2_task_output
deriving DecidableEq, Repr

/-- Calls made on the Multiplexer during `h2_task_create`. -/
inductive MplxCall where
  | reference
  | release
  | out_reset (stream_id : Int) (status : Nat)
deriving DecidableEq, Repr

/-- Resource events emitted by `h2_task_destroy` / `h2_task_abort`. -/
inductive Event where
  | input_destroyed
  | output_destroyed
  | mplx_released
  | pool_destroyed (p : Nat)
deriving DecidableEq, Repr

/-- Events emitted by `h2_task_do`. -/
inductive DoEvent where
  | reset (stream_id : Int) (status : Nat)
  | process_connection
  | socket_close
deriving DecidableEq, Repr

/-- Result of `h2_task_create`: a task handle, `NULL`, or the undefined
behavior of dereferencing the `NULL` task pointer (see the
allocation-failure branch of the source). -/
inductive CreateResult where
  | ok (task : H2Task)
  | null
  | nullDeref
deriving DecidableEq, Repr

/-- Outcomes of the external calls made during `h2_task_create`:
`poolCreateStatus`/`poolCreateId` model `apr_pool_create_ex`,
`taskAllocOk` models whether `apr_pcalloc` returned memory, and
`connCreate` models the connection returned by
`ap_run_create_connection` (`none` = `NULL`). -/
structure CreateEnv where
  poolCreateStatus : Nat
  poolCreateId : Nat
  taskAllocOk : Bool
  connCreate : Option conn_rec
deriving DecidableEq, Repr

/-- `h2_task_create(session_id, stream_id, master, pool, input, input_eos,
mplx)`.  Mirrors the source line by line:
* `if (1 || pool == NULL)` — fresh pool creation, early reset+NULL on
  failure;
* `apr_pcalloc` — on `NULL`, the source calls
  `h2_mplx_out_reset(mplx, task->stream_id, APR_ENOMEM)` with
  `task == NULL`: reading `task->stream_id` dereferences the null
  pointer, modelled as the `nullDeref` outcome (no reset call is
  completed);
* field initialisation, `h2_mplx_reference`;
* `h2_conn_create` — stores the master's config socket, then
  `ap_run_create_connection`; `NULL` yields `APR_EGENERAL`, on which
  create resets and returns `NULL` (without any release);
* bridge creation (`h2_task_input_create` / `h2_task_output_create`)
  and the ok return. -/
def h2_task_create (session_id : Int) (stream_id : Int) (master : conn_rec)
    (pool : Option Nat) (input : Option Nat) (input_eos : Bool)
    (mplx : Nat) (env : CreateEnv) : CreateResult × List MplxCall :=
  let poolStep : Except Nat Nat :=
    if (1 : Nat) ≠ 0 ∨ pool = none then
      if env.poolCreateStatus ≠ APR_SUCCESS then Except.error env.poolCreateStatus
      else Except.ok env.poolCreateId
    else Except.ok (pool.getD 0)
  match poolStep with
  | Except.error status => (CreateResult.null, [MplxCall.out_reset stream_id status])
  | Except.ok p =>
    if env.taskAllocOk then
      let task : H2Task :=
        { session_id := 0, stream_id := 0, aborted := false, running := 0,
          mplx := none, pool := none, c := none, socket := none,
          input := none, output := none }
      let task := { task with stream_id := stream_id, session_id := session_id,
                              pool := some p }
      let task := { task with mplx := some mplx }
      let task := { task with socket := some master.config_socket }
      match env.connCreate with
      | none =>
        (CreateResult.null,
         [MplxCall.reference, MplxCall.out_reset stream_id APR_EGENERAL])
      | some c =>
        let task := { task with c := some c }
        let task := { task with
          input := some { session_id := session_id, stream_id := stream_id,
                          data := input, eos := input_eos },
          output := some { session_id := session_id, stream_id := stream_id,
                           has_started := false } }
        (CreateResult.ok task, [MplxCall.reference])
    else
      (CreateResult.nullDeref, [])

/-- `h2_task_destroy`: tears down input, output and the mplx reference
when present (nulling each field), then destroys the pool when present —
the source never sets `task->pool` to `NULL`.  Always returns
`APR_SUCCESS`. -/
def h2_task_destroy (task : H2Task) : Nat × H2Task × List Event :=
  let r1 : H2Task × List Event :=
    match task.input with
    | some _ => ({ task with input := none }, [Event.input_destroyed])
    | none => (task, [])
  let r2 : H2Task × List Event :=
    match r1.1.output with
    | some _ => ({ r1.1 with output := none }, [Event.output_destroyed])
    | none => (r1.1, [])
  let r3 : H2Task × List Event :=
    match r2.1.mplx with
    | some _ => ({ r2.1 with mplx := none }, [Event.mplx_released])
    | none => (r2.1, [])
  let e4 : List Event :=
    match r3.1.pool with
    | some p => [Event.pool_destroyed p]
    | none => []
  (APR_SUCCESS, r3.1, r1.2 ++ r2.2 ++ r3.2 ++ e4)

/-- `h2_task_abort`: sets `aborted = 1`, then destroys and nulls the two
bridges when present.  Touches nothing else. -/
def h2_task_abort (task : H2Task) : H2Task × List Event :=
  let task := { task with aborted := true }
  let r1 : H2Task × List Event :=
    match task.input with
    | some _ => ({ task with input := none }, [Event.input_destroyed])
    | none => (task, [])
  let r2 : H2Task × List Event :=
    match r1.1.output with
    | some _ => ({ r1.1 with output := none }, [Event.output_destroyed])
    | none => (r1.1, [])
  (r2.1, r1.2 ++ r2.2)

/-- A filter call either returns a status immediately (no delegation) or
delegates to the bridge's own read/write logic and returns its result. -/
inductive FilterOutcome where
  | immediate (status : Nat)
  | delegated (status : Nat)
deriving DecidableEq, Repr

/-- `h2_filter_stream_input`: with `task->input == NULL` returns
`APR_ECONNABORTED` at once; otherwise delegates to `h2_task_input_read`
(abstracted as `input_read`, since h2_task_input.c is outside this
unit). -/
def h2_filter_stream_input (task : H2Task)
    (input_read : h2_task_input → Nat) : FilterOutcome :=
  match task.input with
  | none => FilterOutcome.immediate APR_ECONNABORTED
  | some inp => FilterOutcome.delegated (input_read inp)

/-- `h2_filter_stream_output`: with `task->output == NULL` returns
`APR_ECONNABORTED` at once; otherwise delegates to
`h2_task_output_write` (abstracted as `output_write`). -/
def h2_filter_stream_output (task : H2Task)
    (output_write : h2_task_output → Nat) : FilterOutcome :=
  match task.output with
  | none => FilterOutcome.immediate APR_ECONNABORTED
  | some outp => FilterOutcome.delegated (output_write outp)

/-- Modelled from the spec: `h2_task_output_has_started` lives in
h2_task_output.c, outside this unit; the spec says the Output Bridge
"tracks whether any data has ever been written" and this query reads
that flag. -/
def h2_task_output_has_started (output : h2_task_output) : Bool :=
  output.has_started

/-- Outcomes of the external calls made during `h2_task_do`:
`socketCreateStatus`/`socketCreateSock` model `apr_socket_create`, and
`outputAfterProcess` is the state of the Output Bridge object once the
blocking `ap_process_connection` call has returned (the pipeline
mutates it through the output filter while it runs). -/
structure DoEnv where
  socketCreateStatus : Nat
  socketCreateSock : Nat
  outputAfterProcess : h2_task_output
deriving DecidableEq, Repr

/-- `h2_task_do`: creates the placeholder socket (on failure: reset with
that status and return it, never reaching the pipeline), stores it in
the connection config, runs `ap_process_connection` (return value
ignored), then — with `status` still holding the `APR_SUCCESS` left
over from socket creation — resets the stream with `status` when the
output never started, closes the socket and returns `APR_SUCCESS`. -/
def h2_task_do (task : H2Task) (env : DoEnv) : Nat × H2Task × List DoEvent :=
  let status := env.socketCreateStatus
  if status ≠ APR_SUCCESS then
    (status, task, [DoEvent.reset task.stream_id status])
  else
    let task := { task with socket := some env.socketCreateSock }
    let task := { task with output := some env.outputAfterProcess }
    let resetEvents :=
      if ¬ h2_task_output_has_started env.outputAfterProcess then
        [DoEvent.reset task.stream_id status]
      else []
    (APR_SUCCESS, task,
     DoEvent.process_connection :: resetEvents ++ [DoEvent.socket_close])

/-- `h2_task_get_session_id`. -/
def h2_task_get_session_id (task : H2Task) : Int :=
  task.session_id

/-- `h2_task_get_stream_id`. -/
def h2_task_get_stream_id (task : H2Task) : Int :=
  task.stream_id

/-- `h2_task_is_running`: `apr_atomic_read32` yields the stored
`apr_uint32_t`, converted back to a C `int` on return (two's
complement). -/
def h2_task_is_running (task : H2Task) : Int :=
  if task.running < 2147483648 then (task.running : Int)
  else (task.running : Int) - 4294967296

/-- `h2_task_set_running`: `apr_atomic_set32` stores the `int` argument
converted to `apr_uint32_t` (reduction mod 2^32). -/
def h2_task_set_running (task : H2Task) (running : Int) : H2Task :=
  { task with running := (running % 4294967296).toNat }

/-- Predicate picking out the reset events of `h2_task_do`. -/
def DoEvent.isReset : DoEvent → Bool
  | DoEvent.reset _ _ => true
  | _ => false

/-- A master connection used as concrete fixture. -/
def master0 : conn_rec := { id := 10, pool := 2, config_socket := 42 }

/-- Environment in which every external call of `h2_task_create`
succeeds (fresh pool 7, connection 11). -/
def env0 : CreateEnv :=
  { poolCreateStatus := APR_SUCCESS, poolCreateId := 7, taskAllocOk := true,
    connCreate := some { id := 11, pool := 8, config_socket := 42 } }

/-- Environment in which `apr_pcalloc` fails. -/
def envAllocFail : CreateEnv := { env0 with taskAllocOk := false }

/-- Environment in which `ap_run_create_connection` returns `NULL`. -/
def envConnFail : CreateEnv := { env0 with connCreate := none }

/-- The task produced by `h2_task_create 1 3 master0 none none false 9 env0`
(checked by `h2_task_create_fresh_pool_witness` below). -/
def task0 : H2Task :=
  { session_id := 1, stream_id := 3, aborted := false, running := 0,
    mplx := some 9, pool := some 7,
    c := some { id := 11, pool := 8, config_socket := 42 }, socket := some 42,
    input := some { session_id := 1, stream_id := 3, data := none, eos := false },
    output := some { session_id := 1, stream_id := 3, has_started := false } }

/-- An Output Bridge that has written data. -/
def outStarted : h2_task_output :=
  { session_id := 1, stream_id := 3, has_started := true }

/-- An Output Bridge that never wrote anything. -/
def outSilent : h2_task_output :=
  { session_id := 1, stream_id := 3, has_started := false }

/-- `h2_task_do` environment: socket creation succeeds, pipeline writes
nothing. -/
def doEnvOk : DoEnv :=
  { socketCreateStatus := APR_SUCCESS, socketCreateSock := 55,
    outputAfterProcess := outSilent }

/-- `h2_task_do` environment: socket creation fails with status 70007. -/
def doEnvFail : DoEnv :=
  { socketCreateStatus := 70007, socketCreateSock := 55,
    outputAfterProcess := outSilent }

/-- C1: at the task-allocation-failure step of `h2_task_create` the source
calls `h2_mplx_out_reset(mplx, task->stream_id, APR_ENOMEM)` with
`task == NULL`: evaluating `task->stream_id` dereferences the null
pointer, so the Multiplexer never receives a reset carrying the
stream's id and the out-of-memory status — contradicting the claim
that every creation failure resets the stream with the specific
failure status. -/
theorem h2_task_create_alloc_failure_crash :
    h2_task_create 1 5 master0 none none false 9 envAllocFail
      = (CreateResult.nullDeref, []) := rfl

/-- C2: once `ap_process_connection` has returned (socket creation having
succeeded), `h2_task_do` issues a reset for its stream exactly when the
Output Bridge never started, and every reset it issues names the
task's own stream. -/
theorem h2_task_do_reset_iff_no_output (t : H2Task) (env : DoEnv)
    (h : env.socketCreateStatus = APR_SUCCESS) :
    (((h2_task_do t env).2.2.filter DoEvent.isReset).length
       = if env.outputAfterProcess.has_started then 0 else 1) ∧
    (∀ s st, DoEvent.reset s st ∈ (h2_task_do t env).2.2 → s = t.stream_id) := by
  unfold h2_task_do h2_task_output_has_started
  simp [h]
  cases henv : env.outputAfterProcess.has_started <;>
    simp [henv, DoEvent.isReset]

/-- Witness for C2 at the concrete silent-completion environment. -/
theorem h2_task_do_reset_iff_no_output_witness :
    doEnvOk.socketCreateStatus = APR_SUCCESS ∧
    ((h2_task_do task0 doEnvOk).2.2.filter DoEvent.isReset).length = 1 :=
  ⟨rfl, (h2_task_do_reset_iff_no_output task0 doEnvOk rfl).1⟩

/-- C3: `h2_task_abort` leaves both bridges null, and with a null bridge
each filter returns `APR_ECONNABORTED` immediately, never delegating to
the Multiplexer-backed read/write logic. -/
theorem bridge_calls_after_abort_econnaborted (t : H2Task)
    (input_read : h2_task_input → Nat) (output_write : h2_task_output → Nat) :
    ((h2_task_abort t).1.input = none ∧ (h2_task_abort t).1.output = none) ∧
    (∀ u : H2Task, u.input = none →
      h2_filter_stream_input u input_read
        = FilterOutcome.immediate APR_ECONNABORTED) ∧
    (∀ u : H2Task, u.output = none →
      h2_filter_stream_output u output_write
        = FilterOutcome.immediate APR_ECONNABORTED) := by
  refine ⟨?_, ?_, ?_⟩
  · unfold h2_task_abort
    cases hi : t.input <;> cases ho : t.output <;> simp [hi, ho]
  · intro u hu
    unfold h2_filter_stream_input
    rw [hu]
  · intro u hu
    unfold h2_filter_stream_output
    rw [hu]

/-- Witness for C3 at a concrete aborted task. -/
theorem bridge_calls_after_abort_econnaborted_witness :
    h2_filter_stream_input (h2_task_abort task0).1 (fun _ => 0)
      = FilterOutcome.immediate APR_ECONNABORTED ∧
    h2_filter_stream_output (h2_task_abort task0).1 (fun _ => 0)
      = FilterOutcome.immediate APR_ECONNABORTED := by
  have h := bridge_calls_after_abort_econnaborted task0 (fun _ => 0) (fun _ => 0)
  exact ⟨h.2.1 (h2_task_abort task0).1 h.1.1, h.2.2 (h2_task_abort task0).1 h.1.2⟩

/-- C4: on a successfully created task, a second `h2_task_abort` is a
no-op, but a second `h2_task_destroy` is not: since the source never
clears `task->pool`, the second call runs `apr_pool_destroy` on the
already-destroyed pool 7 again (the pool that holds the task struct
itself), instead of doing nothing. -/
theorem h2_task_destroy_second_call_destroys_pool_again :
    h2_task_abort (h2_task_abort task0).1 = ((h2_task_abort task0).1, []) ∧
    (h2_task_destroy (h2_task_destroy task0).2.1).2.2 = [Event.pool_destroyed 7] ∧
    (h2_task_destroy task0).2.2.count (Event.pool_destroyed 7) = 1 :=
  ⟨rfl, rfl, rfl⟩

/-- C5: when `apr_socket_create` fails, `h2_task_do` resets the stream
with exactly that status, returns it, and never reaches
`ap_process_connection`. -/
theorem h2_task_do_socket_failure (t : H2Task) (env : DoEnv)
    (h : env.socketCreateStatus ≠ APR_SUCCESS) :
    h2_task_do t env
      = (env.socketCreateStatus, t,
         [DoEvent.reset t.stream_id env.socketCreateStatus]) ∧
    DoEvent.process_connection ∉ (h2_task_do t env).2.2 := by
  unfold h2_task_do
  simp [h]

/-- Witness for C5 at the concrete failing environment. -/
theorem h2_task_do_socket_failure_witness :
    doEnvFail.socketCreateStatus ≠ APR_SUCCESS ∧
    h2_task_do task0 doEnvFail
      = (doEnvFail.socketCreateStatus, task0,
         [DoEvent.reset task0.stream_id doEnvFail.socketCreateStatus]) :=
  ⟨by decide, (h2_task_do_socket_failure task0 doEnvFail (by decide)).1⟩

/-- C6: when `ap_run_create_connection` fails during `h2_task_create`,
the Multiplexer reference taken just before is never matched by a
release: the trace holds one `reference`, zero `release`, and no task
handle is returned through which `h2_task_destroy` could release it. -/
theorem h2_task_create_conn_failure_reference_unreleased :
    h2_task_create 2 1 master0 none none false 9 envConnFail
      = (CreateResult.null,
         [MplxCall.reference, MplxCall.out_reset 1 APR_EGENERAL]) ∧
    (h2_task_create 2 1 master0 none none false 9 envConnFail).2.count
        MplxCall.reference = 1 ∧
    (h2_task_create 2 1 master0 none none false 9 envConnFail).2.count
        MplxCall.release = 0 :=
  ⟨rfl, rfl, rfl⟩

/-- C7: `h2_task_abort` changes only the aborted flag and the two bridge
fields; session id, stream id, running flag, mplx reference, pool,
connection and socket are untouched, and the only events it emits are
the two bridge teardowns. -/
theorem h2_task_abort_frame (t : H2Task) :
    (h2_task_abort t).1.session_id = t.session_id ∧
    (h2_task_abort t).1.stream_id = t.stream_id ∧
    (h2_task_abort t).1.running = t.running ∧
    (h2_task_abort t).1.mplx = t.mplx ∧
    (h2_task_abort t).1.pool = t.pool ∧
    (h2_task_abort t).1.c = t.c ∧
    (h2_task_abort t).1.socket = t.socket ∧
    (h2_task_abort t).1.aborted = true ∧
    (h2_task_abort t).1.input = none ∧
    (h2_task_abort t).1.output = none ∧
    (∀ e ∈ (h2_task_abort t).2,
      e = Event.input_destroyed ∨ e = Event.output_destroyed) := by
  unfold h2_task_abort
  cases hi : t.input <;> cases ho : t.output <;> simp [hi, ho]

/-- Witness for C7 at a concrete task. -/
theorem h2_task_abort_frame_witness :
    (h2_task_abort task0).1.mplx = task0.mplx ∧
    (h2_task_abort task0).1.pool = task0.pool ∧
    (h2_task_abort task0).1.aborted = true := by
  have h := h2_task_abort_frame task0
  exact ⟨h.2.2.2.1, h.2.2.2.2.1, h.2.2.2.2.2.2.2.1⟩

/-- C8: the result of `h2_task_create` does not depend on the passed-in
pool parameter at all (the `if (1 || pool == NULL)` condition always
forces fresh-pool creation), and every successfully created task has
the freshly created pool as its arena. -/
theorem h2_task_create_fresh_pool (session_id stream_id : Int)
    (master : conn_rec) (pool1 pool2 : Option Nat) (input : Option Nat)
    (input_eos : Bool) (mplx : Nat) (env : CreateEnv) :
    h2_task_create session_id stream_id master pool1 input input_eos mplx env
      = h2_task_create session_id stream_id master pool2 input input_eos mplx env ∧
    (∀ t tr,
      h2_task_create session_id stream_id master pool1 input input_eos mplx env
        = (CreateResult.ok t, tr) → t.pool = some env.poolCreateId) := by
  have hc1 : ((1 : Nat) ≠ 0 ∨ pool1 = none) := Or.inl one_ne_zero
  have hc2 : ((1 : Nat) ≠ 0 ∨ pool2 = none) := Or.inl one_ne_zero
  constructor
  · unfold h2_task_create
    rw [if_pos hc1, if_pos hc2]
  · intro t tr h
    unfold h2_task_create at h
    rw [if_pos hc1] at h
    by_cases hp : env.poolCreateStatus ≠ APR_SUCCESS
    · rw [if_pos hp] at h
      simp at h
    · rw [if_neg hp] at h
      cases hA : env.taskAllocOk
      · rw [hA] at h
        simp at h
      · rw [hA] at h
        cases hC : env.connCreate
        · rw [hC] at h
          simp at h
        · rw [hC] at h
          simp only [if_true, Prod.mk.injEq, CreateResult.ok.injEq] at h
          obtain ⟨h1, h2⟩ := h
          subst h1
          rfl

/-- Witness for C8: two different passed-in pools give the same result,
and the concrete created task owns the fresh pool 7. -/
theorem h2_task_create_fresh_pool_witness :
    h2_task_create 1 3 master0 (some 5) none false 9 env0
      = h2_task_create 1 3 master0 (some 77) none false 9 env0 ∧
    task0.pool = some env0.poolCreateId :=
  ⟨(h2_task_create_fresh_pool 1 3 master0 (some 5) (some 77) none false 9 env0).1,
   (h2_task_create_fresh_pool 1 3 master0 (some 5) none none false 9 env0).2
     task0 [MplxCall.reference] (by decide)⟩

/-- C9: for every C `int` value v, `h2_task_set_running` followed by
`h2_task_is_running` returns v, and the setter changes no field other
than `running`. -/
theorem h2_task_running_round_trip (t : H2Task) (v : Int)
    (h1 : -2147483648 ≤ v) (h2 : v < 2147483648) :
    h2_task_is_running (h2_task_set_running t v) = v ∧
    (h2_task_set_running t v).session_id = t.session_id ∧
    (h2_task_set_running t v).stream_id = t.stream_id ∧
    (h2_task_set_running t v).aborted = t.aborted ∧
    (h2_task_set_running t v).mplx = t.mplx ∧
    (h2_task_set_running t v).pool = t.pool ∧
    (h2_task_set_running t v).c = t.c ∧
    (h2_task_set_running t v).socket = t.socket ∧
    (h2_task_set_running t v).input = t.input ∧
    (h2_task_set_running t v).output = t.output := by
  constructor
  · show (if (v % 4294967296).toNat < 2147483648
          then ((v % 4294967296).toNat : Int)
          else ((v % 4294967296).toNat : Int) - 4294967296) = v
    split <;> omega
  · exact ⟨rfl, rfl, rfl, rfl, rfl, rfl, rfl, rfl, rfl⟩

/-- Witness for C9 with v = 1 on a concrete task. -/
theorem h2_task_running_round_trip_witness :
    -2147483648 ≤ (1 : Int) ∧ (1 : Int) < 2147483648 ∧
    h2_task_is_running (h2_task_set_running task0 1) = 1 :=
  ⟨by norm_num, by norm_num,
   (h2_task_running_round_trip task0 1 (by norm_num) (by norm_num)).1⟩

/-- C10: whenever socket creation succeeds, `h2_task_do` returns
`APR_SUCCESS` regardless of the pipeline's outcome, and any reset it
issues (the silent-completion reset) carries the leftover
`APR_SUCCESS` status from socket creation. -/
theorem h2_task_do_success_status (t : H2Task) (env : DoEnv)
    (h : env.socketCreateStatus = APR_SUCCESS) :
    (h2_task_do t env).1 = APR_SUCCESS ∧
    (∀ s st, DoEvent.reset s st ∈ (h2_task_do t env).2.2 → st = APR_SUCCESS) := by
  unfold h2_task_do h2_task_output_has_started
  simp [h]

/-- Witness for C10 at the concrete silent-completion environment. -/
theorem h2_task_do_success_status_witness :
    doEnvOk.socketCreateStatus = APR_SUCCESS ∧
    (h2_task_do task0 doEnvOk).1 = APR_SUCCESS :=
  ⟨rfl, (h2_task_do_success_status task0 doEnvOk rfl).1⟩
